import Mathlib

/-!
Verification of `llama_index/vector_stores/sqlite/base.py` (SQLiteVectorStore).

Shallow embedding conventions:
* A Python float destined for a 32-bit slot is modelled by its 32-bit pattern,
  a `Nat` reduced with `% 2 ^ 32` where the pack to single precision happens.
* Bytes are `Nat` values below 256, produced by `% 256`.
* Python exceptions become `Except StoreErr`; the error kinds follow the
  spec's taxonomy (`NotImplementedError` surfaces as `notSupported`,
  database-layer write failures as `storeWrite`, attribute access on a
  missing `self.db` as `attributeError`).
* The sqlite connection is a `DB` record holding the committed rows; each
  loop iteration of `add` commits immediately, matching the per-row
  `self.db.commit()` in the source.
-/

/-- Error kinds observable from the store, named after the spec's taxonomy. -/
inductive StoreErr where
  | storeInit
  | encoding
  | storeWrite
  | malformedVector
  | notSupported (msg : String)
  | attributeError (attr : String)
deriving DecidableEq, Repr

/-- Four little-endian bytes of a 32-bit word: the layout `struct.pack "f"`
gives one component. -/
def packF32 (w : Nat) : List Nat :=
  [w % 256, w / 256 % 256, w / 65536 % 256, w / 16777216 % 256]

/-- `serialize_f32(vector)` from the source: `struct.pack(f"{len(vector)}f", *vector)`.
Each component is reduced to its 32-bit single-precision pattern and laid out
as 4 bytes, in input order, with no length prefix or delimiter. -/
def serialize_f32 : List Nat → List Nat
  | [] => []
  | w :: ws => packF32 (w % 4294967296) ++ serialize_f32 ws

/-- Recombine consecutive 4-byte groups into 32-bit words. -/
def unpack32 : List Nat → List Nat
  | b0 :: b1 :: b2 :: b3 :: rest =>
      (b0 + 256 * b1 + 65536 * b2 + 16777216 * b3) :: unpack32 rest
  | _ => []

/-- Modelled from the spec: the decoder of the vector codec is not present in
the repository sources ("decoding is implied but not exercised by the source").
Per the spec, `decode(bytes, L)` fails with `MalformedVectorError` if
`len(bytes) != 4*L` and otherwise is the inverse of encode. -/
def decode (bs : List Nat) (L : Nat) : Except StoreErr (List Nat) :=
  if bs.length = 4 * L then Except.ok (unpack32 bs) else Except.error StoreErr.malformedVector

theorem serialize_f32_length (v : List Nat) : (serialize_f32 v).length = 4 * v.length := by
  induction v with
  | nil => rfl
  | cons w ws ih =>
      simp [serialize_f32, packF32, ih, List.length_append]
      omega

theorem unpack32_serialize (v : List Nat) :
    unpack32 (serialize_f32 v) = v.map (fun w => w % 4294967296) := by
  induction v with
  | nil => rfl
  | cons w ws ih =>
      have hw : w % 4294967296 < 4294967296 := Nat.mod_lt _ (by norm_num)
      simp only [serialize_f32, packF32, List.cons_append, List.nil_append, unpack32,
        List.map_cons, ih]
      congr 1
      omega

/-- Claim C6: for every list of floats `v`, `serialize_f32 v` has length exactly
`4 * v.length`, and the component at index `i` occupies bytes `4*i .. 4*i+3`
as its 32-bit single-precision pattern, in input order, with no length prefix
or delimiter (the output consists of those `4 * v.length` bytes and nothing else). -/
theorem serialize_f32_size_and_layout (v : List Nat) :
    (serialize_f32 v).length = 4 * v.length ∧
    ∀ i (h : i < v.length),
      ((serialize_f32 v).drop (4 * i)).take 4 = packF32 (v.get ⟨i, h⟩ % 4294967296) := by
  refine ⟨serialize_f32_length v, ?_⟩
  induction v with
  | nil => intro i h; exact absurd h (Nat.not_lt_zero i)
  | cons w ws ih =>
      intro i h
      cases i with
      | zero => simp [serialize_f32, packF32]
      | succ j =>
          have hj : j < ws.length := Nat.lt_of_succ_lt_succ h
          have hdrop : (serialize_f32 (w :: ws)).drop (4 * (j + 1)) =
              (serialize_f32 ws).drop (4 * j) := by
            simp only [serialize_f32, packF32]
            rw [List.drop_append_eq_append_drop,
              List.drop_eq_nil_of_le (by simp), List.nil_append]
            congr 1
          rw [hdrop]
          exact ih j hj

theorem serialize_f32_size_and_layout_witness :
    ((serialize_f32 [1, 4294967295, 7]).length = 4 * 3) ∧
      ((serialize_f32 [1, 4294967295, 7]).drop (4 * 1)).take 4 =
        packF32 (4294967295 % 4294967296) :=
  ⟨(serialize_f32_size_and_layout [1, 4294967295, 7]).1,
   (serialize_f32_size_and_layout [1, 4294967295, 7]).2 1 (by decide)⟩

/-- Claim C7: round-trip of the vector codec — for every sequence `v` of
32-bit float patterns (each below `2^32`, i.e. already single-precision so the
"modulo rounding" caveat is the identity), decoding the encoding of `v` with
length `v.length` yields `v` component-wise. -/
theorem decode_serialize_f32_roundtrip (v : List Nat) (h : ∀ w ∈ v, w < 4294967296) :
    decode (serialize_f32 v) v.length = Except.ok v := by
  unfold decode
  rw [if_pos (serialize_f32_length v), unpack32_serialize]
  congr 1
  induction v with
  | nil => rfl
  | cons w ws ih =>
      simp only [List.map_cons]
      rw [Nat.mod_eq_of_lt (h w (List.mem_cons_self _ _)),
        ih fun x hx => h x (List.mem_cons_of_mem _ hx)]

theorem decode_serialize_f32_roundtrip_witness :
    decode (serialize_f32 [0, 1, 4294967295]) 3 = Except.ok [0, 1, 4294967295] :=
  decode_serialize_f32_roundtrip [0, 1, 4294967295] (by decide)

/-- A node as consumed by `add`: external identifier, embedding (list of
32-bit float patterns), metadata already in its JSON text form (the source's
`json.dumps(node.metadata, ...)` output, opaque here), and textual content
(the source's `node.get_content()`). -/
structure Node where
  node_id : String
  embedding : List Nat
  metadata : String
  content : String
deriving DecidableEq, Repr

/-- The tuple `(node.node_id, node.embedding, json.dumps(node.metadata), node.get_content())`
built by the comprehension at the top of `add`. -/
structure Item where
  node_id : String
  embedding : List Nat
  metadata_json : String
  content : String
deriving DecidableEq, Repr

def Node.toItem (n : Node) : Item :=
  { node_id := n.node_id, embedding := n.embedding, metadata_json := n.metadata,
    content := n.content }

/-- One row of the `vec_items` virtual table, column order as in the
`CREATE VIRTUAL TABLE` statement. -/
structure Row where
  id : Nat
  metadata_ : String
  node_id : String
  embedding : List Nat
  text : String
deriving DecidableEq, Repr

/-- The sqlite connection: its connect target, whether the sqlite-vec
extension is loaded, the declared width of the `embedding float[...]` column,
the committed rows and the next `AUTOINCREMENT` primary key. -/
structure DB where
  target : String
  vecLoaded : Bool
  embedDimDecl : Nat
  rows : List Row
  nextId : Nat
deriving DecidableEq, Repr

/-- A `sqlite3` cursor; per the Python docs the initial value of `lastrowid`
is `None`, and it only changes when the cursor itself executes a statement. -/
structure Cursor where
  lastrowid : Option Nat
deriving DecidableEq, Repr

/-- The store: pydantic fields `embed_dim` and `connection_string`, the
private `_is_initialized` flag, and the `db` attribute (`none` while the
attribute has never been assigned, so that reading it raises
`AttributeError`). -/
structure SQLiteVectorStore where
  embed_dim : Nat
  connection_string : String
  is_initialized_ : Bool
  db : Option DB
deriving DecidableEq, Repr

/-- `SQLiteVectorStore.__init__`: stores the two configuration fields;
`_is_initialized` starts out `False` and `self.db` is not yet assigned. -/
def SQLiteVectorStore.mkStore (connection_string : String) (embed_dim : Nat) :
    SQLiteVectorStore :=
  { embed_dim := embed_dim, connection_string := connection_string,
    is_initialized_ := false, db := none }

/-- `SQLiteVectorStore._initialize`: when not yet initialized, connects with
`sqlite3.connect(":memory:")` (the literal `":memory:"`, not
`self.connection_string`), loads the sqlite-vec extension, creates the
`vec_items` table with `embedding float[self.embed_dim]`, and sets the flag. -/
def SQLiteVectorStore.initializeStore (s : SQLiteVectorStore) : SQLiteVectorStore :=
  if s.is_initialized_ then s
  else
    { s with
      db := some { target := ":memory:", vecLoaded := true, embedDimDecl := s.embed_dim,
                   rows := [], nextId := 1 },
      is_initialized_ := true }

/-- `SQLiteVectorStore.client`: `None` when `_is_initialized` is false,
otherwise the value of `self.db` (an `AttributeError` would only occur in the
unreachable state where the flag is set but the attribute was never
assigned). The function is pure: it neither initializes nor mutates the
store. -/
def SQLiteVectorStore.client (s : SQLiteVectorStore) : Except StoreErr (Option DB) :=
  if s.is_initialized_ = false then Except.ok none
  else
    match s.db with
    | some d => Except.ok (some d)
    | none => Except.error (StoreErr.attributeError "db")

/-- The row written for `item` when the autoincrement counter stands at `k`. -/
def rowOf (k : Nat) (item : Item) : Row :=
  { id := k, metadata_ := item.metadata_json, node_id := item.node_id,
    embedding := serialize_f32 item.embedding, text := item.content }

/-- Modelled from the spec: the `INSERT INTO vec_items(node_id, embedding,
metadata_, text)` statement executed by `add` runs inside the external vec0
virtual table (sqlite-vec), which is not part of the repository sources. Per
the spec, "the consuming vector index expects a raw byte blob whose size is
derived from a statically declared column width", so the insert succeeds
exactly when the embedding blob has `4 * embedDimDecl` bytes, assigning the
next autoincrement primary key; otherwise the database layer rejects the
write (an underlying write failure, `storeWrite` in the spec's taxonomy). -/
def DB.insertVecItem (db : DB) (item : Item) : Except StoreErr DB :=
  if (serialize_f32 item.embedding).length = 4 * db.embedDimDecl then
    Except.ok
      { db with rows := db.rows ++ [rowOf db.nextId item], nextId := db.nextId + 1 }
  else Except.error StoreErr.storeWrite

/-- The `for item in items` loop of `add`: each iteration executes the INSERT
through `self.db.execute` (which uses a fresh implicit cursor), commits it
immediately, and appends `cursor.lastrowid` — the `lastrowid` of the explicit
cursor created before the loop, which never executes anything. An exception
partway through propagates, leaving the rows committed so far. -/
def addLoop (db : DB) (cursor : Cursor) :
    List Item → Except StoreErr (List (Option Nat)) × DB
  | [] => (Except.ok [], db)
  | item :: rest =>
    match db.insertVecItem item with
    | Except.error e => (Except.error e, db)
    | Except.ok db2 =>
      match addLoop db2 cursor rest with
      | (Except.ok ids, db3) => (Except.ok (cursor.lastrowid :: ids), db3)
      | (Except.error e, db3) => (Except.error e, db3)

/-- `SQLiteVectorStore.add`: builds the items list, enters `with self.db:`
(raising `AttributeError` when `self.db` was never assigned — nothing in the
source ever calls `_initialize`), creates a cursor, and runs the insert loop.
Returns the list of `cursor.lastrowid` values and the updated store. -/
def SQLiteVectorStore.add (s : SQLiteVectorStore) (nodes : List Node) :
    Except StoreErr (List (Option Nat)) × SQLiteVectorStore :=
  match s.db with
  | none => (Except.error (StoreErr.attributeError "db"), s)
  | some db =>
    let cursor : Cursor := { lastrowid := none }
    match addLoop db cursor (nodes.map Node.toItem) with
    | (Except.ok ids, db2) => (Except.ok ids, { s with db := some db2 })
    | (Except.error e, db2) => (Except.error e, { s with db := some db2 })

/-- Opaque stand-in for `MetadataFilters` (external collaborator). -/
structure MetadataFilters where
  tag : Nat
deriving DecidableEq, Repr

/-- Opaque stand-in for `VectorStoreQuery` (external collaborator). -/
structure VectorStoreQuery where
  tag : Nat
deriving DecidableEq, Repr

/-- Opaque stand-in for `VectorStoreQueryResult` (external collaborator). -/
structure VectorStoreQueryResult where
  tag : Nat
deriving DecidableEq, Repr

/-- `SQLiteVectorStore.get_nodes`: raises `NotImplementedError("get_nodes not implemented")`. -/
def SQLiteVectorStore.get_nodes (s : SQLiteVectorStore) (node_ids : Option (List String))
    (filters : Option MetadataFilters) : Except StoreErr (List Node) :=
  Except.error (StoreErr.notSupported "get_nodes not implemented")

/-- `SQLiteVectorStore.delete`: raises `NotImplementedError("get_nodes not implemented")`
(the source reuses the `get_nodes` message). -/
def SQLiteVectorStore.delete (s : SQLiteVectorStore) (ref_doc_id : String) :
    Except StoreErr Unit :=
  Except.error (StoreErr.notSupported "get_nodes not implemented")

/-- `SQLiteVectorStore.delete_nodes`: raises `NotImplementedError("delete_nodes not implemented")`. -/
def SQLiteVectorStore.delete_nodes (s : SQLiteVectorStore) (node_ids : Option (List String))
    (filters : Option MetadataFilters) : Except StoreErr Unit :=
  Except.error (StoreErr.notSupported "delete_nodes not implemented")

/-- `SQLiteVectorStore.clear`: raises `NotImplementedError("clear not implemented")`. -/
def SQLiteVectorStore.clear (s : SQLiteVectorStore) : Except StoreErr Unit :=
  Except.error (StoreErr.notSupported "clear not implemented")

/-- `SQLiteVectorStore.query`: raises `NotImplementedError("get_nodes not implemented")`
(the source reuses the `get_nodes` message). -/
def SQLiteVectorStore.query (s : SQLiteVectorStore) (q : VectorStoreQuery) :
    Except StoreErr VectorStoreQueryResult :=
  Except.error (StoreErr.notSupported "get_nodes not implemented")

/-- The rows that inserting `items` produces when the autoincrement counter
starts at `k`. -/
def rowsFor (k : Nat) : List Item → List Row
  | [] => []
  | item :: rest => rowOf k item :: rowsFor (k + 1) rest

theorem addLoop_all_valid (cursor : Cursor) (items : List Item) :
    ∀ db : DB, (∀ it ∈ items, it.embedding.length = db.embedDimDecl) →
    addLoop db cursor items =
      (Except.ok (List.replicate items.length cursor.lastrowid),
       { db with rows := db.rows ++ rowsFor db.nextId items,
                 nextId := db.nextId + items.length }) := by
  induction items with
  | nil => intro db _; simp [addLoop, rowsFor]
  | cons item rest ih =>
      intro db h
      have hlen : (serialize_f32 item.embedding).length = 4 * db.embedDimDecl := by
        rw [serialize_f32_length, h item (List.mem_cons_self _ _)]
      have hins : db.insertVecItem item = Except.ok
          { db with rows := db.rows ++ [rowOf db.nextId item], nextId := db.nextId + 1 } := by
        unfold DB.insertVecItem
        rw [if_pos hlen]
      have hrest : ∀ it ∈ rest, it.embedding.length = db.embedDimDecl :=
        fun it hit => h it (List.mem_cons_of_mem _ hit)
      simp only [addLoop, hins]
      have ih2 := ih
        { db with rows := db.rows ++ [rowOf db.nextId item], nextId := db.nextId + 1 } hrest
      rw [ih2]
      simp only [List.length_cons, List.replicate_succ, rowsFor, List.append_assoc,
        List.singleton_append]
      have harith : db.nextId + 1 + rest.length = db.nextId + (rest.length + 1) := by omega
      rw [harith]

theorem addLoop_fails_after_valid_ones (cursor : Cursor) (good : List Item)
    (bad : Item) (rest : List Item) :
    ∀ db : DB, (∀ it ∈ good, it.embedding.length = db.embedDimDecl) →
    bad.embedding.length ≠ db.embedDimDecl →
    addLoop db cursor (good ++ bad :: rest) =
      (Except.error StoreErr.storeWrite,
       { db with rows := db.rows ++ rowsFor db.nextId good,
                 nextId := db.nextId + good.length }) := by
  induction good with
  | nil =>
      intro db _ hbad
      have hlen : ¬ (serialize_f32 bad.embedding).length = 4 * db.embedDimDecl := by
        rw [serialize_f32_length]
        omega
      have hins : db.insertVecItem bad = Except.error StoreErr.storeWrite := by
        unfold DB.insertVecItem
        rw [if_neg hlen]
      simp [addLoop, hins, rowsFor]
  | cons item good ih =>
      intro db h hbad
      have hlen : (serialize_f32 item.embedding).length = 4 * db.embedDimDecl := by
        rw [serialize_f32_length, h item (List.mem_cons_self _ _)]
      have hins : db.insertVecItem item = Except.ok
          { db with rows := db.rows ++ [rowOf db.nextId item], nextId := db.nextId + 1 } := by
        unfold DB.insertVecItem
        rw [if_pos hlen]
      have hgood : ∀ it ∈ good, it.embedding.length = db.embedDimDecl :=
        fun it hit => h it (List.mem_cons_of_mem _ hit)
      simp only [List.cons_append, addLoop, hins]
      have ih2 := ih
        { db with rows := db.rows ++ [rowOf db.nextId item], nextId := db.nextId + 1 } hgood hbad
      simp only [List.append_eq] at ih2 ⊢
      rw [ih2]
      simp only [List.length_cons, rowsFor, List.append_assoc, List.singleton_append]
      have harith : db.nextId + 1 + good.length = db.nextId + (good.length + 1) := by omega
      rw [harith]

/-- A reduction of `add` on a store whose `db` attribute is assigned. -/
theorem add_with_db (s : SQLiteVectorStore) (db : DB) (hdb : s.db = some db)
    (nodes : List Node) :
    s.add nodes =
      ((addLoop db { lastrowid := none } (nodes.map Node.toItem)).1,
       { s with db := some (addLoop db { lastrowid := none } (nodes.map Node.toItem)).2 }) := by
  unfold SQLiteVectorStore.add
  rw [hdb]
  rcases hres : addLoop db { lastrowid := none } (nodes.map Node.toItem) with ⟨res, db2⟩
  cases res <;> simp [hres]

/-- A fresh store configured with `embed_dim = 3`, manually initialized. -/
def store3 : SQLiteVectorStore := (SQLiteVectorStore.mkStore ":memory:" 3).initializeStore

/-- The connection `store3` holds after initialization. -/
def initDB3 : DB :=
  { target := ":memory:", vecLoaded := true, embedDimDecl := 3, rows := [], nextId := 1 }

def nodeA : Node := { node_id := "a", embedding := [1, 2, 3], metadata := "{}", content := "hi" }

def nodeB : Node := { node_id := "b", embedding := [4, 5, 6], metadata := "{}", content := "yo" }

/-- A node whose embedding has length 2, not the configured 3. -/
def nodeShort : Node := { node_id := "c", embedding := [7, 8], metadata := "{}", content := "no" }

/-- Claim C1: the claim says `add` returns the generated primary keys in input
order, distinct and strictly increasing. The code instead appends
`cursor.lastrowid` of the explicit cursor created by `self.db.cursor()`, while
every INSERT runs through `self.db.execute` on its own implicit cursor; the
explicit cursor never executes a statement, so its `lastrowid` stays `None`.
This theorem evaluates `add` on a freshly initialized store with two valid
nodes: the rows do get primary keys 1 and 2, but the returned list is
`[None, None]`. -/
theorem add_returns_unused_cursor_lastrowid :
    (store3.add [nodeA, nodeB]).1 = Except.ok [none, none] ∧
    (store3.add [nodeA, nodeB]).2.db.map DB.rows =
      some [rowOf 1 nodeA.toItem, rowOf 2 nodeB.toItem] :=
  ⟨rfl, rfl⟩

/-- Claim C2: the claim says initialization opens the connection determined by
the configured connection target. The code calls
`sqlite3.connect(":memory:")` with the literal sentinel, ignoring
`self.connection_string`: a store configured with a filesystem path still gets
an ephemeral in-memory database. -/
theorem initialize_connects_to_memory_regardless :
    ((SQLiteVectorStore.mkStore "/data/vectors.db" 4).initializeStore.db.map DB.target) =
      some ":memory:" ∧
    (SQLiteVectorStore.mkStore "/data/vectors.db" 4).connection_string = "/data/vectors.db" ∧
    (":memory:" : String) ≠ "/data/vectors.db" :=
  ⟨rfl, rfl, by decide⟩

/-- Claim C3: the claim says the first mutating operation implicitly performs
initialization. Nothing in the source ever calls `_initialize`: `add` enters
`with self.db:` directly, and on a freshly constructed store the `db`
attribute was never assigned, so the first `add` raises `AttributeError`
instead of initializing; the store stays uninitialized. -/
theorem add_on_fresh_store_raises_attribute_error :
    ((SQLiteVectorStore.mkStore ":memory:" 3).add [nodeA]).1 =
      Except.error (StoreErr.attributeError "db") ∧
    ((SQLiteVectorStore.mkStore ":memory:" 3).add [nodeA]).2 =
      SQLiteVectorStore.mkStore ":memory:" 3 ∧
    (SQLiteVectorStore.mkStore ":memory:" 3).is_initialized_ = false :=
  ⟨rfl, rfl, rfl⟩

/-- Claim C4, counterexample: on a store with `embed_dim = 3`, adding a node
whose embedding has length 2 does not fail with `EncodingError` — the adapter
performs no dimension check and `serialize_f32` happily packs 8 bytes; the
failure is the database layer rejecting the write (`storeWrite`). No row is
written. -/
theorem add_dim_mismatch_counterexample :
    (store3.add [nodeShort]).1 = Except.error StoreErr.storeWrite ∧
    (store3.add [nodeShort]).1 ≠ Except.error StoreErr.encoding ∧
    (store3.add [nodeShort]).2.db.map DB.rows = some [] := by
  refine ⟨rfl, ?_, rfl⟩
  intro hcontra
  have h1 : (store3.add [nodeShort]).1 = Except.error StoreErr.storeWrite := rfl
  rw [h1] at hcontra
  simp at hcontra

/-- Claim C4 as amended: for every call to `add` containing a node whose
embedding length differs from the declared dimension (the valid nodes coming
first), the call fails with the underlying write error `storeWrite` — not
`EncodingError`, which the adapter never raises — and no row is written for
the mismatched item: the committed rows are exactly the prior rows plus the
rows of the valid nodes that preceded it. -/
theorem add_dim_mismatch_underlying_write_error (s : SQLiteVectorStore) (db : DB)
    (good : List Node) (bad : Node) (rest : List Node) (hdb : s.db = some db)
    (hgood : ∀ n ∈ good, n.embedding.length = db.embedDimDecl)
    (hbad : bad.embedding.length ≠ db.embedDimDecl) :
    (s.add (good ++ bad :: rest)).1 = Except.error StoreErr.storeWrite ∧
    (s.add (good ++ bad :: rest)).2.db.map DB.rows =
      some (db.rows ++ rowsFor db.nextId (good.map Node.toItem)) := by
  have hgood2 : ∀ it ∈ good.map Node.toItem, it.embedding.length = db.embedDimDecl := by
    intro it hit
    rcases List.mem_map.mp hit with ⟨n, hn, rfl⟩
    exact hgood n hn
  have hloop := addLoop_fails_after_valid_ones { lastrowid := none }
    (good.map Node.toItem) bad.toItem (rest.map Node.toItem) db hgood2 hbad
  rw [add_with_db s db hdb (good ++ bad :: rest)]
  have hmap : (good ++ bad :: rest).map Node.toItem =
      good.map Node.toItem ++ bad.toItem :: rest.map Node.toItem := by
    simp
  rw [hmap, hloop]
  exact ⟨rfl, rfl⟩

theorem add_dim_mismatch_underlying_write_error_witness :
    (store3.add ([nodeA] ++ nodeShort :: [])).1 = Except.error StoreErr.storeWrite ∧
    (store3.add ([nodeA] ++ nodeShort :: [])).2.db.map DB.rows =
      some (initDB3.rows ++ rowsFor initDB3.nextId ([nodeA].map Node.toItem)) :=
  add_dim_mismatch_underlying_write_error store3 initDB3 [nodeA] nodeShort [] rfl
    (by decide) (by decide)

/-- Claim C5: for every input, each of the unimplemented operations —
`get_nodes`, `delete` (by ref doc), `delete_nodes`, `clear` and `query` —
fails with an explicit not-supported error (the source raises
`NotImplementedError`; `delete` and `query` reuse the `get_nodes` message)
rather than returning an empty or default result. -/
theorem unimplemented_ops_raise_not_supported (s : SQLiteVectorStore)
    (node_ids : Option (List String)) (filters : Option MetadataFilters)
    (ref_doc_id : String) (q : VectorStoreQuery) :
    s.get_nodes node_ids filters =
      Except.error (StoreErr.notSupported "get_nodes not implemented") ∧
    s.delete ref_doc_id = Except.error (StoreErr.notSupported "get_nodes not implemented") ∧
    s.delete_nodes node_ids filters =
      Except.error (StoreErr.notSupported "delete_nodes not implemented") ∧
    s.clear = Except.error (StoreErr.notSupported "clear not implemented") ∧
    s.query q = Except.error (StoreErr.notSupported "get_nodes not implemented") :=
  ⟨rfl, rfl, rfl, rfl, rfl⟩

/-- Claim C8: initialization is idempotent — after a first `_initialize` the
flag is set, and a second `_initialize` is the exact identity on the store: no
new connection, no second schema creation, no error. -/
theorem initializeStore_idempotent (s : SQLiteVectorStore) :
    s.initializeStore.is_initialized_ = true ∧
    s.initializeStore.initializeStore = s.initializeStore := by
  cases h : s.is_initialized_ <;>
    simp [SQLiteVectorStore.initializeStore, h]

/-- Claim C9: within a single `add` call each insertion is committed
individually, so a failure partway through leaves every previously inserted
row committed: when the nodes in `good` are valid and `bad` is rejected, the
failed call leaves exactly the prior rows plus one committed row per node of
`good` — the same rows a successful `add good` would have committed — with no
all-or-nothing rollback. -/
theorem add_partial_failure_keeps_committed_rows (s : SQLiteVectorStore) (db : DB)
    (good : List Node) (bad : Node) (rest : List Node) (hdb : s.db = some db)
    (hgood : ∀ n ∈ good, n.embedding.length = db.embedDimDecl)
    (hbad : bad.embedding.length ≠ db.embedDimDecl) :
    (∃ e, (s.add (good ++ bad :: rest)).1 = Except.error e) ∧
    (s.add (good ++ bad :: rest)).2.db.map DB.rows =
      some (db.rows ++ rowsFor db.nextId (good.map Node.toItem)) ∧
    (s.add good).2.db.map DB.rows =
      some (db.rows ++ rowsFor db.nextId (good.map Node.toItem)) := by
  have hgood2 : ∀ it ∈ good.map Node.toItem, it.embedding.length = db.embedDimDecl := by
    intro it hit
    rcases List.mem_map.mp hit with ⟨n, hn, rfl⟩
    exact hgood n hn
  have hfail := addLoop_fails_after_valid_ones { lastrowid := none }
    (good.map Node.toItem) bad.toItem (rest.map Node.toItem) db hgood2 hbad
  have hok := addLoop_all_valid { lastrowid := none } (good.map Node.toItem) db hgood2
  have hmap : (good ++ bad :: rest).map Node.toItem =
      good.map Node.toItem ++ bad.toItem :: rest.map Node.toItem := by
    simp
  refine ⟨⟨StoreErr.storeWrite, ?_⟩, ?_, ?_⟩
  · rw [add_with_db s db hdb (good ++ bad :: rest), hmap, hfail]
  · rw [add_with_db s db hdb (good ++ bad :: rest), hmap, hfail]
    exact rfl
  · rw [add_with_db s db hdb good, hok]
    exact rfl

theorem add_partial_failure_keeps_committed_rows_witness :
    (∃ e, (store3.add ([nodeA, nodeB] ++ nodeShort :: [])).1 = Except.error e) ∧
    (store3.add ([nodeA, nodeB] ++ nodeShort :: [])).2.db.map DB.rows =
      some (initDB3.rows ++ rowsFor initDB3.nextId ([nodeA, nodeB].map Node.toItem)) ∧
    (store3.add [nodeA, nodeB]).2.db.map DB.rows =
      some (initDB3.rows ++ rowsFor initDB3.nextId ([nodeA, nodeB].map Node.toItem)) :=
  add_partial_failure_keeps_committed_rows store3 initDB3 [nodeA, nodeB] nodeShort []
    rfl (by decide) (by decide)

/-- Claim C10: the `client` accessor returns `None` while the store is
uninitialized and the open connection once initialization has succeeded; it is
a pure read (it takes the store and returns only a value, so it cannot mutate
the flag or the connection, i.e. it never triggers initialization), and on any
store satisfying the reachable-state invariant — the flag implies the `db`
attribute is assigned — it never raises an error. -/
theorem client_reflects_initialization (s : SQLiteVectorStore)
    (hinv : s.is_initialized_ = true → s.db.isSome = true) :
    (s.is_initialized_ = false → s.client = Except.ok none) ∧
    (∀ d, s.is_initialized_ = true → s.db = some d → s.client = Except.ok (some d)) ∧
    (∃ v, s.client = Except.ok v) := by
  refine ⟨?_, ?_, ?_⟩
  · intro h
    simp [SQLiteVectorStore.client, h]
  · intro d h hd
    simp [SQLiteVectorStore.client, h, hd]
  · cases h : s.is_initialized_ with
    | false => exact ⟨none, by simp [SQLiteVectorStore.client, h]⟩
    | true =>
        have hsome := hinv h
        cases hd : s.db with
        | none => rw [hd] at hsome; simp at hsome
        | some d => exact ⟨some d, by simp [SQLiteVectorStore.client, h, hd]⟩

theorem client_reflects_initialization_witness :
    (SQLiteVectorStore.mkStore ":memory:" 3).client = Except.ok none ∧
    store3.client = Except.ok (some initDB3) :=
  ⟨(client_reflects_initialization (SQLiteVectorStore.mkStore ":memory:" 3)
      (by decide)).1 rfl,
   (client_reflects_initialization store3 (fun _ => rfl)).2.1 initDB3 rfl rfl⟩
